import Mathlib

/-!
Shallow embedding of the crawl-and-aggregate pipeline of `src/main.py`
(the afterdark repository). HTTP transports and the BeautifulSoup parse of a
fetched body are abstracted as explicit function parameters whose shape
matches exactly what the Python code reads from them; a raised Python
exception is modelled by `Except.error ()` (it propagates through callers
that do not catch it), and `asyncio.gather` over fallible tasks is modelled
by `gatherExcept`. All set-typed intermediate values of the Python code are
modelled as lists with `List.dedup`, which agrees with the Python sets on
membership and on duplicate-freedom (enumeration order of a Python set is
unspecified and is not part of any contract here).
-/

namespace Afterdark

/-- Boolean test that `pat` occurs as a contiguous substring of `s`,
modelling the Python operator `pat in s` and `re.compile(pat).search(s)`
for a metacharacter-free literal pattern (such as `/thumb/` on line 199 or
`jpg5.su` on line 292 of `src/main.py`). -/
def hasSubstr (pat s : String) : Bool := decide (pat.data <:+: s.data)

/-- Boolean test modelling Python `s.startswith(pat)`. -/
def strStarts (pat s : String) : Bool := decide (pat.data <+: s.data)

/-- Outcome of one `session.get` at the transport level: either a response
(body text, final URL after redirects, status code) or a raised
network-level exception (DNS failure, connection reset, timeout). -/
inductive NetResult where
  | ok (text : String) (finalUrl : String) (status : Nat)
  | exn
deriving DecidableEq

/-- A transport: what the network returns for each requested URL. -/
def Transport : Type := String → NetResult

/-- Model of `get_webpage_content` (src/main.py lines 61-64): performs
`session.get(url, allow_redirects=True)` and returns
`(text, str(response.url), response.status)`. The function contains no
`try`/`except`, so a raised transport exception propagates to the caller,
which `Except.error ()` records; a response is returned whole, whatever its
status code. -/
def get_webpage_content (t : Transport) (url : String) :
    Except Unit (String × String × Nat) :=
  match t url with
  | .ok b u s => .ok (b, u, s)
  | .exn => .error ()

/-- Outcome of the status-only transport used by `validate_url`: the final
status code of the range-limited `session.get`, or a raised exception. -/
def StatusTransport : Type := String → Except Unit Nat

/-- Model of `validate_url` (src/main.py lines 189-197): issues a
range-limited GET; returns the URL when the response status is exactly 200,
and `none` for every other status; the bare `except Exception` turns any
raised exception into `none` as well, so the function itself never
propagates an exception. -/
def validate_url (t : StatusTransport) (url : String) : Option String :=
  match t url with
  | .ok s => if s = 200 then some url else none
  | .error _ => none

/-- Model of `asyncio.gather(*tasks)` without `return_exceptions=True`
(src/main.py lines 208 and 211): if every task completes, the list of their
results is returned in task order; if any task raises, the exception
propagates out of the gather. -/
def gatherExcept : List (Except Unit α) → Except Unit (List α)
  | [] => .ok []
  | .error e :: _ => .error e
  | .ok a :: rest => (gatherExcept rest).map (fun l => a :: l)

-- ------------------------------------------------------------------
-- Erome (src/main.py lines 66-111)
-- ------------------------------------------------------------------

/-- The facts the Erome search code reads from one fetched search page:
whether the body text is empty (Python `not text`), the `href` attribute of
each anchor with class `album-link` in document order (`none` when the
attribute is absent), and the response status. -/
structure EromeSearchPage where
  body_empty : Bool
  album_anchors : List (Option String)
  status : Nat
deriving DecidableEq

/-- Model of `extract_album_links` (lines 67-74): collect the album-link
anchor hrefs that are present and start with the fixed host marker into a
set, returned as a list (`dedup` models the set semantics). An absent or
empty href is skipped, since the empty string never passes the marker
test. -/
def extract_album_links (p : EromeSearchPage) : List String :=
  ((p.album_anchors.filterMap id).filter
    (fun h => strStarts "https://www.erome.com/a/" h)).dedup

/-- Instrumented core of `fetch_all_album_pages_by_username` (lines 76-87):
the Python `for page in range(1, max_pages + 1)` loop, recursing on the
number of remaining iterations. The first component accumulates the links
added to `all_links` in page order; the second component records which page
numbers were actually fetched (instrumentation used to state the pagination
claims; it adds no behaviour). The loop body breaks when the status is not
200 or the body is empty; an empty parse result does not stop the loop. -/
def eromeWalk (fetch : Nat → EromeSearchPage) :
    Nat → Nat → List String × List Nat
  | 0, _ => ([], [])
  | n+1, page =>
    if (fetch page).status != 200 || (fetch page).body_empty then ([], [page])
    else
      (extract_album_links (fetch page) ++ (eromeWalk fetch n (page+1)).1,
       page :: (eromeWalk fetch n (page+1)).2)

/-- Model of `fetch_all_album_pages_by_username` (lines 76-87). The first
component is the returned `list(all_links)` (a set, so duplicate-free); the
second component is the instrumentation list of fetched page numbers. The
source default for `max_pages` is 10, and both API endpoints call the
function without overriding it. -/
def fetch_all_album_pages_by_username (fetch : Nat → EromeSearchPage)
    (max_pages : Nat) : List String × List Nat :=
  ((eromeWalk fetch max_pages 1).1.dedup, (eromeWalk fetch max_pages 1).2)

/-- Outcome of fetching one Erome album page inside `fetch_image_urls`
(lines 96-104): on a response, the final URL after redirects, the
`data-src` attribute of each `div.img` element in document order, and the
status code (which the source ignores); or a raised exception. -/
inductive EromeFetch where
  | ok (baseUrl : String) (dataSrcs : List (Option String)) (status : Nat)
  | exn
deriving DecidableEq

/-- The image list `fetch_image_urls` builds from a fetched album page
(lines 99-103): each present, non-empty `data-src` resolved against the
final URL by `urljoin` (the stdlib resolver, abstracted as `join`). -/
def erome_images (join : String → String → String) (baseUrl : String)
    (dataSrcs : List (Option String)) : List String :=
  (dataSrcs.filterMap (fun d =>
    match d with
    | none => none
    | some s => if s = "" then none else some s)).map (fun s => join baseUrl s)

/-- Model of the task `fetch_image_urls` (lines 96-104) as awaited through
`asyncio.gather(..., return_exceptions=True)`: a raised exception becomes a
non-list gather entry, modelled `none`; otherwise the parsed image list.
The response status is ignored by the source. -/
def fetch_image_urls (join : String → String → String) (f : EromeFetch) :
    Option (List String) :=
  match f with
  | .ok b ds _ => some (erome_images join b ds)
  | .exn => none

/-- Model of `fetch_all_erome_image_urls` (lines 106-111): gather all album
tasks with `return_exceptions=True`, keep the entries that are lists,
concatenate them, drop every URL containing `/thumb/`, and return the
resulting set as a list. -/
def fetch_all_erome_image_urls (join : String → String → String)
    (fetch : String → EromeFetch) (album_urls : List String) : List String :=
  let all_images := album_urls.map (fun u => fetch_image_urls join (fetch u))
  let all_image_urls := (all_images.filterMap id).flatten
  (all_image_urls.filter (fun u => !(hasSubstr "/thumb/" u))).dedup

-- ------------------------------------------------------------------
-- Bunkr gallery (src/main.py lines 162-213)
-- ------------------------------------------------------------------

/-- An album reference `{url, title}` as built by the Bunkr search code. -/
structure Album where
  url : String
  title : String
deriving DecidableEq

/-- The facts `get_image_links_from_album` reads from one fetched Bunkr
album page: the `href` of each anchor carrying `aria-label="download"`, in
document order. -/
structure BunkrAlbumPage where
  downloadHrefs : List String
deriving DecidableEq

/-- The leaf-link list built from a Bunkr album page (lines 168-176): a
path `/f/...` is made absolute with the fixed host, an already absolute
`https://bunkr.cr/f/...` is kept, anything else is dropped. -/
def bunkr_album_leaf_links (p : BunkrAlbumPage) : List String :=
  p.downloadHrefs.filterMap (fun href =>
    if strStarts "/f/" href then some ("https://bunkr.cr" ++ href)
    else if strStarts "https://bunkr.cr/f/" href then some href
    else none)

/-- Model of `get_image_links_from_album` (lines 162-176). The transport
outcome per URL: `.error ()` models a raised exception from `session.get`
(uncaught, so it propagates), `.ok none` a non-200 status (the source
returns `[]`), `.ok (some p)` a 200 response with its parsed page. -/
def get_image_links_from_album
    (albumFetch : String → Except Unit (Option BunkrAlbumPage))
    (album_url : String) : Except Unit (List String) :=
  match albumFetch album_url with
  | .error e => .error e
  | .ok none => .ok []
  | .ok (some p) => .ok (bunkr_album_leaf_links p)

/-- The facts `get_image_url_from_link` reads from one fetched Bunkr leaf
page: whether an `img` whose class contains `object-cover` exists, and if
so its `src` attribute (which may itself be absent). -/
structure BunkrLeafPage where
  coverImg : Option (Option String)
deriving DecidableEq

/-- Model of `get_image_url_from_link` (lines 178-187): `none` for a
non-200 status, for a missing cover image, or for a cover image without a
`src`; otherwise the `src`. A raised exception propagates. -/
def get_image_url_from_link
    (leafFetch : String → Except Unit (Option BunkrLeafPage))
    (link : String) : Except Unit (Option String) :=
  match leafFetch link with
  | .error e => .error e
  | .ok none => .ok none
  | .ok (some p) =>
    .ok (match p.coverImg with
         | none => none
         | some attr => attr)

/-- The pre-validation candidate list of line 209: the gathered leaf
results that are not `None` and do not match the thumbnail pattern. -/
def bunkr_image_url_candidates (results : List (Option String)) : List String :=
  (results.filterMap id).filter (fun u => !(hasSubstr "/thumb/" u))

/-- The post-validation list of line 212: the validation results that are
not `None`, with the thumbnail filter applied again. -/
def bunkr_validated_urls (vs : StatusTransport) (image_urls : List String) :
    List String :=
  ((image_urls.map (fun u => validate_url vs u)).filterMap id).filter
    (fun u => !(hasSubstr "/thumb/" u))

/-- Model of `fetch_bunkr_gallery_images_from_albums` (lines 201-213): the
sequential album loop collects leaf links (the first raised exception
aborts the whole call, which the `Except` bind records), one leaf task per
link is gathered WITHOUT `return_exceptions=True` (line 208, so again a
raised exception aborts the batch), candidates are filtered, validated,
filtered again and returned as a set. -/
def fetch_bunkr_gallery_images_from_albums
    (albumFetch : String → Except Unit (Option BunkrAlbumPage))
    (leafFetch : String → Except Unit (Option BunkrLeafPage))
    (vs : StatusTransport) (albums : List Album) :
    Except Unit (List String) :=
  match gatherExcept
      (albums.map (fun a => get_image_links_from_album albumFetch a.url)) with
  | .error e => .error e
  | .ok linkLists =>
    match gatherExcept
        ((linkLists.flatten).map (fun l => get_image_url_from_link leafFetch l)) with
    | .error e => .error e
    | .ok results =>
      .ok (bunkr_validated_urls vs (bunkr_image_url_candidates results)).dedup

/-- Leaf links of one album URL when the album fetch does not raise. -/
def bunkr_links_of (g : String → Option BunkrAlbumPage) (url : String) :
    List String :=
  match g url with
  | none => []
  | some p => bunkr_album_leaf_links p

/-- Leaf image of one leaf link when the leaf fetch does not raise. -/
def bunkr_leaf_image_of (g : String → Option BunkrLeafPage) (link : String) :
    Option String :=
  match g link with
  | none => none
  | some p =>
    match p.coverImg with
    | none => none
    | some attr => attr

/-- The gallery the Bunkr aggregator produces when no fetch raises. -/
def bunkr_gallery_of_responses (g : String → Option BunkrAlbumPage)
    (gl : String → Option BunkrLeafPage) (vs : StatusTransport)
    (albums : List Album) : List String :=
  let tasks := (albums.map (fun a => bunkr_links_of g a.url)).flatten
  let results := tasks.map (fun l => bunkr_leaf_image_of gl l)
  (bunkr_validated_urls vs (bunkr_image_url_candidates results)).dedup

-- ------------------------------------------------------------------
-- Fapello (src/main.py lines 216-279)
-- ------------------------------------------------------------------

/-- One `img` element on a Fapello sub-page: its `src` and `data-src`
attributes. -/
structure FapelloImg where
  src : Option String
  dataSrc : Option String
deriving DecidableEq

/-- Outcome of fetching one Fapello sub-page inside
`fetch_fapello_page_media`: the `img` elements, the `src` of each
`source type="video/mp4"` element, and the status; or a raised exception
(caught by the try of line 217). -/
inductive FapelloPageFetch where
  | ok (imgs : List FapelloImg) (videoSrcs : List String) (status : Nat)
  | exn
deriving DecidableEq

/-- Python `a or b` on two optional strings, where `None` and the empty
string are falsy (line 226). -/
def pyOr (a b : Option String) : Option String :=
  match a with
  | some s => if s = "" then b else some s
  | none => b

/-- Model of `fetch_fapello_page_media` (lines 216-239): on an exception or
a non-200 status the page contributes nothing; otherwise an image is kept
when its `src or data-src` is truthy, starts with the fixed content host
marker and contains `/<username>/`; a video is kept when its `src` starts
with `https://` (only the scheme, not the content host) and contains
`/<username>/`. -/
def fetch_fapello_page_media (f : FapelloPageFetch) (username : String) :
    List String × List String :=
  match f with
  | .exn => ([], [])
  | .ok imgs vids status =>
    if status != 200 then ([], [])
    else
      (imgs.filterMap (fun img =>
         match pyOr img.src img.dataSrc with
         | none => none
         | some u =>
           if u != "" && strStarts "https://fapello.com/content/" u &&
               hasSubstr ("/" ++ username ++ "/") u
           then some u else none),
       vids.filter (fun v =>
         strStarts "https://" v && hasSubstr ("/" ++ username ++ "/") v))

/-- Split a character list at every occurrence of `c`, modelling Python
`s.split(sep)` for a one-character separator (the empty string splits to a
singleton list holding the empty string). -/
def splitOnChar (c : Char) : List Char → List (List Char)
  | [] => [[]]
  | x :: xs =>
    if x = c then [] :: splitOnChar c xs
    else
      match splitOnChar c xs with
      | [] => [[x]]
      | y :: ys => (x :: y) :: ys

/-- Scan for the first `://` scheme separator and return what follows it. -/
def afterSchemeSep : List Char → Option (List Char)
  | [] => none
  | ':' :: '/' :: '/' :: rest => some rest
  | _ :: rest => afterSchemeSep rest

/-- Model of `urllib.parse.urlparse(u).path` for the URL shapes this
pipeline receives (absolute http or https URLs without query or fragment):
everything from the first slash after the host, the empty string when the
host is not followed by a slash, and the whole input when no scheme
separator is present (as urlparse then treats the input as a bare path). -/
def urlparse_path (u : String) : String :=
  match afterSchemeSep u.data with
  | none => u
  | some rest => String.mk (rest.dropWhile (fun c => c != '/'))

/-- Python `s.strip(SLASH)`: remove leading and trailing slashes. -/
def stripSlashes (l : List Char) : List Char :=
  ((l.dropWhile (fun c => c == '/')).reverse.dropWhile (fun c => c == '/')).reverse

/-- Model of lines 243-248: the username is the first component of the
URL path stripped of slashes; `none` when that component is empty, in
which case the source returns empty media immediately. -/
def extract_username (album_url : String) : Option String :=
  match splitOnChar '/' (stripSlashes (urlparse_path album_url).data) with
  | [] => none
  | p :: _ => if p = [] then none else some (String.mk p)

/-- Model of `re.search` with the raw pattern of line 264 (slash, one or
more digits, one optional final slash, end of string): true exactly when
the string ends with such a numeric path segment. -/
def endsNumSeg (s : String) : Bool :=
  let r := s.data.reverse
  let r2 := match r with
    | '/' :: rest => rest
    | other => other
  let ds := r2.takeWhile (fun c => c.isDigit)
  match ds, r2.drop ds.length with
  | [], _ => false
  | _ :: _, '/' :: _ => true
  | _, _ => false

/-- Outcome of fetching the main Fapello album page (line 255): the final
URL, every anchor href in document order, and the status; or a raised
exception, which this function does not catch. -/
inductive FapelloMainFetch where
  | ok (baseUrl : String) (hrefs : List String) (status : Nat)
  | exn
deriving DecidableEq

/-- Model of `fetch_fapello_album_media` (lines 241-279): extract the
username from the album URL path (empty media when absent); fetch the main
page (non-200 yields empty media, a raised exception propagates); collect
the set of absolutised anchor hrefs that extend the album URL and end in a
numeric segment, falling back to the album URL itself when none are found;
fan out `fetch_fapello_page_media` over them (each sub-page task catches
its own exceptions, and the gather uses `return_exceptions=True`); and
return the deduplicated image and video lists. -/
def fetch_fapello_album_media (join : String → String → String)
    (mainFetch : FapelloMainFetch) (subFetch : String → FapelloPageFetch)
    (album_url : String) : Except Unit (List String × List String) :=
  match extract_username album_url with
  | none => Except.ok ([], [])
  | some username =>
    match mainFetch with
    | .exn => Except.error ()
    | .ok baseUrl hrefs status =>
      if status != 200 then Except.ok ([], [])
      else
        let links0 := ((hrefs.map (fun h => join baseUrl h)).filter
            (fun h => strStarts album_url h && endsNumSeg h)).dedup
        let links := if links0.isEmpty then [album_url] else links0
        let results := links.map
          (fun l => fetch_fapello_page_media (subFetch l) username)
        Except.ok (((results.map Prod.fst).flatten).dedup,
                   ((results.map Prod.snd).flatten).dedup)

-- ------------------------------------------------------------------
-- Bunkr search pagination (src/main.py lines 55-59 and 114-145)
-- ------------------------------------------------------------------

/-- The facts the Bunkr search code reads from one fetched search-results
page: every anchor href in document order (line 57), every span text with
the title class (line 58), and the hrefs of the anchors with the
`btn btn-sm btn-main` class (line 141, searched for the next-page
control). -/
structure BunkrSearchPage where
  hrefs : List String
  titleSpans : List String
  btnHrefs : List String
deriving DecidableEq

/-- Model of `parse_links_and_titles` (lines 55-59) at the pattern of line
121: `re.match` against the anchored regex keeps exactly the hrefs starting
with the fixed host marker (the trailing `.*` consumes the rest); titles
are all the texts of title-class spans. -/
def parse_links_and_titles (p : BunkrSearchPage) : List String × List String :=
  (p.hrefs.filter (fun h => strStarts "https://bunkr.cr/a/" h), p.titleSpans)

/-- The album list one search page yields (lines 124-126): `zip` pairs the
Nth matching link with the Nth title span, truncating to the shorter
list. -/
def bunkr_page_albums (p : BunkrSearchPage) : List Album :=
  List.zipWith (fun u t => Album.mk u t) (parse_links_and_titles p).1
    (parse_links_and_titles p).2

/-- Model of `get_album_links_from_search` (lines 114-127): `none` models a
non-200 status, which yields `[]`. -/
def get_album_links_from_search (fetch : Nat → Option BunkrSearchPage)
    (page : Nat) : List Album :=
  match fetch page with
  | none => []
  | some p => bunkr_page_albums p

/-- Model of the next-page test of line 141: some btn-classed anchor href
matches the compiled pattern, i.e. contains the literal
`?search=<username>&page=<page+1>` (faithful for usernames without regex
metacharacters, on which `re.escape` is the identity). -/
def has_next_control (username : String) (p : BunkrSearchPage) (page : Nat) :
    Bool :=
  p.btnHrefs.any (fun h =>
    hasSubstr ("?search=" ++ username ++ "&page=" ++ toString (page+1)) h)

/-- Instrumented model of `get_all_album_links_from_search` (lines
129-145): fuel-based recursion standing in for the unbounded Python
`while True` loop (fuel exhaustion returns what was accumulated; every
claim supplies enough fuel). The second component records the page numbers
fetched. The source fetches each search URL twice, once for the albums and
once to look for the next-page control; the model reads the same fetched
page for both, which coincides with the source on deterministic
fixtures. -/
def bunkrWalk (fetch : Nat → Option BunkrSearchPage) (username : String) :
    Nat → Nat → List Album × List Nat
  | 0, _ => ([], [])
  | fuel+1, page =>
    match fetch page with
    | none => ([], [page])
    | some p =>
      if (bunkr_page_albums p).isEmpty then ([], [page])
      else if has_next_control username p page then
        (bunkr_page_albums p ++ (bunkrWalk fetch username fuel (page+1)).1,
         page :: (bunkrWalk fetch username fuel (page+1)).2)
      else (bunkr_page_albums p, [page])

/-- The album list `get_all_album_links_from_search` returns, starting from
page 1. -/
def get_all_album_links_from_search (fetch : Nat → Option BunkrSearchPage)
    (username : String) (fuel : Nat) : List Album :=
  (bunkrWalk fetch username fuel 1).1

/-- A search page that lets the walker advance: the fetch returned a
response, the parsed album list is non-empty, and a next-page control is
present. -/
def bunkr_page_good (fetch : Nat → Option BunkrSearchPage)
    (username : String) (page : Nat) : Bool :=
  match fetch page with
  | none => false
  | some p => !(bunkr_page_albums p).isEmpty && has_next_control username p page

-- ------------------------------------------------------------------
-- JPG5 (src/main.py lines 281-306)
-- ------------------------------------------------------------------

/-- The facts the JPG5 code reads from one fetched page: every `img` src in
document order, and the href of the `a` element with
`data-pagination="next"` when present with an href. -/
structure JpgPage where
  imgSrcs : List String
  nextHref : Option String
deriving DecidableEq

/-- The media one page contributes (line 292): the img srcs containing the
host marker. -/
def jpg_page_media (p : JpgPage) : List String :=
  p.imgSrcs.filter (fun s => hasSubstr "jpg5.su" s)

/-- Next-page URL normalisation (lines 301-303): a relative href is
prefixed with the fixed host. -/
def jpg_next_url (href : String) : String :=
  if strStarts "http" href then href else "https://jpg5.su" ++ href

/-- Python `album_url.rstrip` on the slash character (line 283). -/
def rstripSlash (s : String) : String :=
  String.mk ((s.data.reverse.dropWhile (fun c => c == '/')).reverse)

/-- Instrumented model of the loop of `extract_jpg5_album_media_urls`
(lines 285-305), fuel-based. `acc` is the media set accumulated so far as
a duplicate-free list. The loop stops on a non-200 fetch, on a page with no
matching media, when merging the page media does not grow the set (the
stall test compares the set size before and after the update), or when no
next-page control is present; otherwise it follows the control. The second
component records the URLs fetched. -/
def jpgWalk (fetch : String → Option JpgPage) :
    Nat → String → List String → List String × List String
  | 0, _, acc => (acc, [])
  | fuel+1, url, acc =>
    match fetch url with
    | none => (acc, [url])
    | some p =>
      if (jpg_page_media p).isEmpty then (acc, [url])
      else
        if ((acc ++ jpg_page_media p).dedup).length = acc.length then
          ((acc ++ jpg_page_media p).dedup, [url])
        else
          match p.nextHref with
          | none => ((acc ++ jpg_page_media p).dedup, [url])
          | some h =>
            ((jpgWalk fetch fuel (jpg_next_url h)
                ((acc ++ jpg_page_media p).dedup)).1,
             url :: (jpgWalk fetch fuel (jpg_next_url h)
                ((acc ++ jpg_page_media p).dedup)).2)

/-- Model of `extract_jpg5_album_media_urls` (lines 281-306): walk from the
album URL stripped of trailing slashes, starting with an empty set. -/
def extract_jpg5_album_media_urls (fetch : String → Option JpgPage)
    (fuel : Nat) (album_url : String) : List String × List String :=
  jpgWalk fetch fuel (rstripSlash album_url) []

-- ------------------------------------------------------------------
-- Concrete fixtures used by counterexamples and witnesses
-- ------------------------------------------------------------------

/-- Bunkr fixture with five leaf pages of which the second and fourth raise
a network exception when fetched. -/
def c1_albumFetch : String → Except Unit (Option BunkrAlbumPage) :=
  fun _ => Except.ok (some ⟨["/f/1", "/f/2", "/f/3", "/f/4", "/f/5"]⟩)

def c1_leafFetch : String → Except Unit (Option BunkrLeafPage) :=
  fun l =>
    if l = "https://bunkr.cr/f/2" || l = "https://bunkr.cr/f/4" then
      Except.error ()
    else Except.ok (some ⟨some (some ("img" ++ l))⟩)

def c1_vs : StatusTransport := fun _ => Except.ok 200

/-- Bunkr fixture whose first leaf resolves to a thumbnail URL and whose
validation transport would accept every URL, thumbnails included. -/
def c2_albumFetch : String → Except Unit (Option BunkrAlbumPage) :=
  fun _ => Except.ok (some ⟨["/f/1", "/f/2"]⟩)

def c2_leafFetch : String → Except Unit (Option BunkrLeafPage) :=
  fun l =>
    if l = "https://bunkr.cr/f/1" then
      Except.ok (some ⟨some (some "https://cdn/thumb/a.jpg")⟩)
    else Except.ok (some ⟨some (some "https://cdn/full/a.jpg")⟩)

def c2_vs : StatusTransport := fun _ => Except.ok 200

/-- JPG5 fixture: page 2 has a strict subset of the media of page 1 and
still shows a next-page control pointing at a third page. -/
def c3_fetch : String → Option JpgPage :=
  fun u =>
    if u = "https://jpg5.su/alb" then
      some ⟨["https://jpg5.su/i1.jpg", "https://jpg5.su/i2.jpg"],
            some "/alb?page=2"⟩
    else if u = "https://jpg5.su/alb?page=2" then
      some ⟨["https://jpg5.su/i1.jpg"], some "/alb?page=3"⟩
    else
      some ⟨["https://jpg5.su/i3.jpg"], none⟩

/-- Erome fixture whose third page is a 200 response with a non-empty body
parsing to no album links, while a fourth page still has one. -/
def c4_fetch : Nat → EromeSearchPage :=
  fun page =>
    if page = 1 then ⟨false, [some "https://www.erome.com/a/p1"], 200⟩
    else if page = 2 then ⟨false, [some "https://www.erome.com/a/p2"], 200⟩
    else if page = 4 then ⟨false, [some "https://www.erome.com/a/p4"], 200⟩
    else ⟨false, [], 200⟩

/-- Erome fixture where every page yields a fresh album link. -/
def c5_fetch : Nat → EromeSearchPage :=
  fun page =>
    ⟨false, [some ("https://www.erome.com/a/p" ++ toString page)], 200⟩

/-- Bunkr fixture where every search page yields an album and a next-page
control. -/
def c5b_fetch : Nat → Option BunkrSearchPage :=
  fun page =>
    some ⟨["https://bunkr.cr/a/x"], ["t"],
          ["/?search=u&page=" ++ toString (page+1)]⟩

/-- Bunkr search fixture for the three-page termination shape: pages 1 and
2 carry an album and a next-page control, page 3 parses to no albums. -/
def c4b_fetch : Nat → Option BunkrSearchPage :=
  fun page =>
    if page = 1 then
      some ⟨["https://bunkr.cr/a/1"], ["T1"], ["/?search=u&page=2"]⟩
    else if page = 2 then
      some ⟨["https://bunkr.cr/a/2"], ["T2"], ["/?search=u&page=3"]⟩
    else some ⟨[], [], []⟩

/-- Erome fixture whose third page fails with a 500 status. -/
def c4c_fetch : Nat → EromeSearchPage :=
  fun page =>
    if page = 3 then ⟨false, [], 500⟩
    else ⟨false, [some "https://www.erome.com/a/x"], 200⟩

/-- Bunkr search fixture: page 1 carries two albums and a next-page
control, page 2 one album and no control. -/
def c7_page1 : BunkrSearchPage :=
  ⟨["https://bunkr-albums.io/x", "https://bunkr.cr/a/1", "https://bunkr.cr/a/2"],
   ["A1", "A2"], ["/?search=alice&page=2"]⟩

def c7_page2 : BunkrSearchPage :=
  ⟨["https://bunkr.cr/a/3"], ["A3"], []⟩

def c7_fetch : Nat → Option BunkrSearchPage :=
  fun page =>
    if page = 1 then some c7_page1
    else if page = 2 then some c7_page2
    else none

/-- Erome fixture where two album references resolve to overlapping image
sets. -/
def c8_join : String → String → String := fun _ r => r

def c8_fetch : String → EromeFetch :=
  fun _ => EromeFetch.ok "b" [some "https://e/u1.jpg"] 200

-- ------------------------------------------------------------------
-- Helper lemmas
-- ------------------------------------------------------------------

theorem gatherExcept_map_ok (f : α → β) (l : List α) :
    gatherExcept (l.map (fun a => (Except.ok (f a) : Except Unit β))) =
      Except.ok (l.map f) := by
  induction l with
  | nil => rfl
  | cons x xs ih => simp [gatherExcept, ih, List.map_cons, Except.map]

/-- Helper: full characterisation of `validate_url`. -/
theorem validate_url_some_iff (t : StatusTransport) (url v : String) :
    validate_url t url = some v ↔ v = url ∧ t url = Except.ok 200 := by
  unfold validate_url
  cases hu : t url with
  | ok s =>
    by_cases hs : s = 200
    · subst hs
      simp [eq_comm]
    · simp [hs]
  | error e =>
    simp

/-- Helper: membership in the Erome aggregate output is exactly being a
non-thumbnail image of some album whose fetch returned a response (a raised
exception contributes nothing and aborts nothing). -/
theorem mem_erome_aggregate_iff (join : String → String → String)
    (fetch : String → EromeFetch) (album_urls : List String) (u : String) :
    u ∈ fetch_all_erome_image_urls join fetch album_urls ↔
      hasSubstr "/thumb/" u = false ∧
      ∃ a ∈ album_urls, ∃ b ds st, fetch a = EromeFetch.ok b ds st ∧
        u ∈ erome_images join b ds := by
  unfold fetch_all_erome_image_urls
  constructor
  · intro h
    rw [List.mem_dedup, List.mem_filter] at h
    obtain ⟨hmem, hb⟩ := h
    rw [List.mem_flatten] at hmem
    obtain ⟨l, hl, hul⟩ := hmem
    rw [List.mem_filterMap] at hl
    obtain ⟨o, ho, hid⟩ := hl
    rw [List.mem_map] at ho
    obtain ⟨a, ha, rfl⟩ := ho
    refine ⟨by simpa using hb, a, ha, ?_⟩
    cases hf : fetch a with
    | ok b ds st =>
      refine ⟨b, ds, st, rfl, ?_⟩
      rw [hf] at hid
      simp only [fetch_image_urls, id, Option.some.injEq] at hid
      rwa [hid]
    | exn =>
      rw [hf] at hid
      simp [fetch_image_urls] at hid
  · rintro ⟨hb, a, ha, b, ds, st, hf, hu⟩
    rw [List.mem_dedup, List.mem_filter]
    refine ⟨?_, by simp [hb]⟩
    rw [List.mem_flatten]
    refine ⟨erome_images join b ds, ?_, hu⟩
    rw [List.mem_filterMap]
    refine ⟨some (erome_images join b ds), ?_, rfl⟩
    rw [List.mem_map]
    exact ⟨a, ha, by simp [fetch_image_urls, hf]⟩

theorem get_image_links_from_album_ok (g : String → Option BunkrAlbumPage)
    (url : String) :
    get_image_links_from_album (fun u => Except.ok (g u)) url =
      Except.ok (bunkr_links_of g url) := by
  cases h : g url <;> simp [get_image_links_from_album, bunkr_links_of, h]

theorem get_image_url_from_link_ok (g : String → Option BunkrLeafPage)
    (link : String) :
    get_image_url_from_link (fun u => Except.ok (g u)) link =
      Except.ok (bunkr_leaf_image_of g link) := by
  cases h : g link <;> simp [get_image_url_from_link, bunkr_leaf_image_of, h]

/-- Helper: when no album or leaf fetch raises, the Bunkr aggregator
completes and returns exactly `bunkr_gallery_of_responses`. -/
theorem bunkr_gallery_ok (g : String → Option BunkrAlbumPage)
    (gl : String → Option BunkrLeafPage) (vs : StatusTransport)
    (albums : List Album) :
    fetch_bunkr_gallery_images_from_albums (fun u => Except.ok (g u))
        (fun u => Except.ok (gl u)) vs albums =
      Except.ok (bunkr_gallery_of_responses g gl vs albums) := by
  unfold fetch_bunkr_gallery_images_from_albums bunkr_gallery_of_responses
  simp only [get_image_links_from_album_ok, get_image_url_from_link_ok,
    gatherExcept_map_ok]

/-- Helper: a successful run of the Bunkr aggregator returns the dedup of
the twice-filtered validated list for the gathered leaf results. -/
theorem bunkr_gallery_ok_shape
    (aF : String → Except Unit (Option BunkrAlbumPage))
    (lF : String → Except Unit (Option BunkrLeafPage))
    (vs : StatusTransport) (albums : List Album) (out : List String)
    (h : fetch_bunkr_gallery_images_from_albums aF lF vs albums =
      Except.ok out) :
    ∃ results, out =
      (bunkr_validated_urls vs (bunkr_image_url_candidates results)).dedup := by
  unfold fetch_bunkr_gallery_images_from_albums at h
  cases h1 : gatherExcept
      (albums.map (fun a => get_image_links_from_album aF a.url)) with
  | error e =>
    rw [h1] at h
    exact absurd h (by simp)
  | ok linkLists =>
    rw [h1] at h
    dsimp only at h
    cases h2 : gatherExcept
        ((linkLists.flatten).map (fun l => get_image_url_from_link lF l)) with
    | error e =>
      rw [h2] at h
      exact absurd h (by simp)
    | ok results =>
      rw [h2] at h
      refine ⟨results, ?_⟩
      simpa using h.symm

/-- Helper: everything in the pre-validation candidate list avoids the
thumbnail marker. -/
theorem mem_candidates_no_thumb (results : List (Option String)) (u : String)
    (h : u ∈ bunkr_image_url_candidates results) :
    hasSubstr "/thumb/" u = false := by
  unfold bunkr_image_url_candidates at h
  rw [List.mem_filter] at h
  simpa using h.2

/-- Helper: everything in the post-validation list avoids the thumbnail
marker. -/
theorem mem_validated_no_thumb (vs : StatusTransport) (cand : List String)
    (u : String) (h : u ∈ bunkr_validated_urls vs cand) :
    hasSubstr "/thumb/" u = false := by
  unfold bunkr_validated_urls at h
  rw [List.mem_filter] at h
  simpa using h.2

/-- Helper: membership in the no-exception Bunkr gallery. -/
theorem mem_bunkr_gallery_iff (g : String → Option BunkrAlbumPage)
    (gl : String → Option BunkrLeafPage) (vs : StatusTransport)
    (albums : List Album) (u : String) :
    u ∈ bunkr_gallery_of_responses g gl vs albums ↔
      hasSubstr "/thumb/" u = false ∧ vs u = Except.ok 200 ∧
      ∃ a ∈ albums, ∃ l ∈ bunkr_links_of g a.url,
        bunkr_leaf_image_of gl l = some u := by
  unfold bunkr_gallery_of_responses bunkr_validated_urls
    bunkr_image_url_candidates
  constructor
  · intro h
    rw [List.mem_dedup, List.mem_filter] at h
    obtain ⟨hmem, hb⟩ := h
    rw [List.mem_filterMap] at hmem
    obtain ⟨c, hc, hval⟩ := hmem
    rw [List.mem_map] at hc
    obtain ⟨c0, hc0, rfl⟩ := hc
    obtain ⟨rfl, hok⟩ := (validate_url_some_iff vs c0 u).1 hval
    rw [List.mem_filter] at hc0
    obtain ⟨hc0m, _⟩ := hc0
    rw [List.mem_filterMap] at hc0m
    obtain ⟨o, ho, hid⟩ := hc0m
    rw [List.mem_map] at ho
    obtain ⟨l, hl, rfl⟩ := ho
    rw [List.mem_flatten] at hl
    obtain ⟨ll, hll, hlm⟩ := hl
    rw [List.mem_map] at hll
    obtain ⟨a, ha, rfl⟩ := hll
    simp only [id] at hid
    exact ⟨by simpa using hb, hok, a, ha, l, hlm, hid⟩
  · rintro ⟨hb, hok, a, ha, l, hl, himg⟩
    rw [List.mem_dedup, List.mem_filter]
    refine ⟨?_, by simp [hb]⟩
    rw [List.mem_filterMap]
    refine ⟨validate_url vs u, ?_, (validate_url_some_iff vs u u).2 ⟨rfl, hok⟩⟩
    rw [List.mem_map]
    refine ⟨u, ?_, rfl⟩
    rw [List.mem_filter]
    refine ⟨?_, by simp [hb]⟩
    rw [List.mem_filterMap]
    refine ⟨some u, ?_, rfl⟩
    rw [List.mem_map]
    refine ⟨l, ?_, himg⟩
    rw [List.mem_flatten]
    refine ⟨bunkr_links_of g a.url, ?_, hl⟩
    rw [List.mem_map]
    exact ⟨a, ha, rfl⟩

-- ------------------------------------------------------------------
-- C9 / C10 theorems
-- ------------------------------------------------------------------

/-- C9 counterexample: the claim says a network-level failure is reported
to the caller as a distinguished failure outcome rather than a raised
exception. On a transport whose GET raises, `get_webpage_content` has no
handler and the exception propagates (modelled by `Except.error ()`), so no
`(body, finalURL, status)` outcome is ever handed to the caller. -/
theorem C9_counterexample :
    get_webpage_content (fun _ => NetResult.exn) "https://example.com" =
      Except.error () := rfl

/-- C9 amended: the Page Fetcher never raises for a non-2xx response status
(any response, whatever its status code, is returned whole as body, final
URL and status for the caller to inspect), but a network-level failure is
not caught: the exception propagates to the caller. -/
theorem C9_amended (t : Transport) (url : String) :
    (∀ b u s, t url = NetResult.ok b u s →
      get_webpage_content t url = Except.ok (b, u, s)) ∧
    (t url = NetResult.exn → get_webpage_content t url = Except.error ()) := by
  constructor
  · intro b u s h
    simp [get_webpage_content, h]
  · intro h
    simp [get_webpage_content, h]

/-- C9 amended witness: a concrete 404 response is returned whole without
an exception, and a concrete transport failure propagates as an error. -/
theorem C9_amended_witness :
    get_webpage_content (fun _ => NetResult.ok "nf" "https://a/x" 404)
        "https://a/x" = Except.ok ("nf", "https://a/x", 404) ∧
    get_webpage_content (fun _ => NetResult.exn) "https://a/y" =
        Except.error () :=
  ⟨(C9_amended (fun _ => NetResult.ok "nf" "https://a/x" 404)
      "https://a/x").1 "nf" "https://a/x" 404 rfl,
   (C9_amended (fun _ => NetResult.exn) "https://a/y").2 rfl⟩

/-- C10: the validator retains a candidate URL exactly when the existence
request completes with status 200: every other status (206 included) and
every raised exception yield `none`, and `validate_url` is a total function
(the bare `except` means it never propagates an exception itself). -/
theorem C10_validate_url_iff (t : StatusTransport) (url : String) :
    (validate_url t url = some url ↔ t url = Except.ok 200) ∧
    (∀ v, validate_url t url = some v → v = url) := by
  unfold validate_url
  cases hu : t url with
  | ok s =>
    by_cases hs : s = 200
    · subst hs
      constructor
      · simp
      · intro v h
        simpa using h.symm
    · simp [hs]
  | error e =>
    simp

-- ------------------------------------------------------------------
-- C1 / C2 / C8 theorems
-- ------------------------------------------------------------------

/-- C1 counterexample: the claim says an individual fetch failure (raised
network error included) never aborts the batch, so five Bunkr leaf pages of
which two raise should still yield the assets of the other three. On this
concrete fixture (five leaves, the second and fourth raising), the leaf
gather of line 208 runs without `return_exceptions=True`, so the whole
aggregation aborts with the raised exception and returns no assets at
all. -/
theorem C1_counterexample :
    fetch_bunkr_gallery_images_from_albums c1_albumFetch c1_leafFetch c1_vs
      [⟨"https://bunkr.cr/a/A", "t"⟩] = Except.error () := rfl

/-- C1 amended: in the Erome aggregator a raised fetch exception is
swallowed and never aborts the batch — the output is exactly the
non-thumbnail images of the albums whose fetch returned a response (of any
status). In the Bunkr aggregator, when no fetch raises the batch completes,
and a leaf that reports failure by a non-200 status or a missing image
contributes nothing while the successes are all kept; a raised exception,
however, aborts the Bunkr batch (see the counterexample). -/
theorem C1_amended :
    (∀ (join : String → String → String) (fetch : String → EromeFetch)
        (album_urls : List String) (u : String),
      u ∈ fetch_all_erome_image_urls join fetch album_urls ↔
        hasSubstr "/thumb/" u = false ∧
        ∃ a ∈ album_urls, ∃ b ds st, fetch a = EromeFetch.ok b ds st ∧
          u ∈ erome_images join b ds) ∧
    (∀ (g : String → Option BunkrAlbumPage)
        (gl : String → Option BunkrLeafPage) (vs : StatusTransport)
        (albums : List Album),
      fetch_bunkr_gallery_images_from_albums (fun u => Except.ok (g u))
          (fun u => Except.ok (gl u)) vs albums =
        Except.ok (bunkr_gallery_of_responses g gl vs albums)) ∧
    (∀ (g : String → Option BunkrAlbumPage)
        (gl : String → Option BunkrLeafPage) (vs : StatusTransport)
        (albums : List Album) (u : String),
      u ∈ bunkr_gallery_of_responses g gl vs albums ↔
        hasSubstr "/thumb/" u = false ∧ vs u = Except.ok 200 ∧
        ∃ a ∈ albums, ∃ l ∈ bunkr_links_of g a.url,
          bunkr_leaf_image_of gl l = some u) :=
  ⟨mem_erome_aggregate_iff, bunkr_gallery_ok, mem_bunkr_gallery_iff⟩

/-- C2: no URL containing the thumbnail marker survives: not in the Bunkr
pre-validation candidate list, not in the Bunkr post-validation list, not
in any successful Bunkr aggregation output (whatever the validation
transport answers, so even when validation would accept a thumbnail), and
not in the Erome aggregation output. -/
theorem C2_thumbnail_exclusion :
    (∀ (results : List (Option String)) (u : String),
        u ∈ bunkr_image_url_candidates results →
          hasSubstr "/thumb/" u = false) ∧
    (∀ (vs : StatusTransport) (cand : List String) (u : String),
        u ∈ bunkr_validated_urls vs cand → hasSubstr "/thumb/" u = false) ∧
    (∀ (aF : String → Except Unit (Option BunkrAlbumPage))
        (lF : String → Except Unit (Option BunkrLeafPage))
        (vs : StatusTransport) (albums : List Album) (out : List String)
        (u : String),
        fetch_bunkr_gallery_images_from_albums aF lF vs albums =
          Except.ok out → u ∈ out → hasSubstr "/thumb/" u = false) ∧
    (∀ (join : String → String → String) (fetch : String → EromeFetch)
        (album_urls : List String) (u : String),
        u ∈ fetch_all_erome_image_urls join fetch album_urls →
          hasSubstr "/thumb/" u = false) := by
  refine ⟨mem_candidates_no_thumb, mem_validated_no_thumb, ?_, ?_⟩
  · intro aF lF vs albums out u h hu
    obtain ⟨results, rfl⟩ := bunkr_gallery_ok_shape aF lF vs albums out h
    rw [List.mem_dedup] at hu
    exact mem_validated_no_thumb vs _ u hu
  · intro join fetch album_urls u h
    exact ((mem_erome_aggregate_iff join fetch album_urls u).1 h).1

/-- C2 witness: a fixture whose first leaf resolves to a thumbnail URL and
whose validation transport accepts everything (thumbnails included) still
returns only the non-thumbnail URL, which indeed avoids the marker. -/
theorem C2_witness :
    fetch_bunkr_gallery_images_from_albums c2_albumFetch c2_leafFetch c2_vs
        [⟨"https://bunkr.cr/a/A", "t"⟩] =
      Except.ok ["https://cdn/full/a.jpg"] ∧
    hasSubstr "/thumb/" "https://cdn/full/a.jpg" = false :=
  ⟨rfl,
   C2_thumbnail_exclusion.2.2.1 c2_albumFetch c2_leafFetch c2_vs
     [⟨"https://bunkr.cr/a/A", "t"⟩] ["https://cdn/full/a.jpg"]
     "https://cdn/full/a.jpg" rfl (List.mem_singleton.2 rfl)⟩

/-- C8: every aggregator output is duplicate-free, so overlapping fetched
bodies still contribute each distinct URL exactly once: the Erome output is
duplicate-free and counts every member exactly once, every successful
Bunkr aggregation output is duplicate-free, and both components of every
successful Fapello aggregation output are duplicate-free. -/
theorem C8_deduplication :
    (∀ (join : String → String → String) (fetch : String → EromeFetch)
        (album_urls : List String),
        (fetch_all_erome_image_urls join fetch album_urls).Nodup) ∧
    (∀ (join : String → String → String) (fetch : String → EromeFetch)
        (album_urls : List String) (u : String),
        u ∈ fetch_all_erome_image_urls join fetch album_urls →
        (fetch_all_erome_image_urls join fetch album_urls).count u = 1) ∧
    (∀ (aF : String → Except Unit (Option BunkrAlbumPage))
        (lF : String → Except Unit (Option BunkrLeafPage))
        (vs : StatusTransport) (albums : List Album) (out : List String),
        fetch_bunkr_gallery_images_from_albums aF lF vs albums =
          Except.ok out → out.Nodup) ∧
    (∀ (join : String → String → String) (mainFetch : FapelloMainFetch)
        (subFetch : String → FapelloPageFetch) (album_url : String)
        (out : List String × List String),
        fetch_fapello_album_media join mainFetch subFetch album_url =
          Except.ok out → out.1.Nodup ∧ out.2.Nodup) := by
  have herome : ∀ (join : String → String → String)
      (fetch : String → EromeFetch) (album_urls : List String),
      (fetch_all_erome_image_urls join fetch album_urls).Nodup := by
    intro join fetch album_urls
    unfold fetch_all_erome_image_urls
    exact List.nodup_dedup _
  refine ⟨herome, ?_, ?_, ?_⟩
  · intro join fetch album_urls u hu
    exact List.count_eq_one_of_mem (herome join fetch album_urls) hu
  · intro aF lF vs albums out h
    obtain ⟨results, rfl⟩ := bunkr_gallery_ok_shape aF lF vs albums out h
    exact List.nodup_dedup _
  · intro join mainFetch subFetch album_url out h
    unfold fetch_fapello_album_media at h
    cases hu : extract_username album_url with
    | none =>
      rw [hu] at h
      simp only [Except.ok.injEq] at h
      rw [← h]
      exact ⟨List.nodup_nil, List.nodup_nil⟩
    | some username =>
      rw [hu] at h
      cases mainFetch with
      | exn => simp at h
      | ok b hs st =>
        by_cases hst : st = 200
        · subst hst
          simp only [show ((200 : Nat) != 200) = false from rfl,
            Bool.false_eq_true, if_false, Except.ok.injEq] at h
          rw [← h]
          exact ⟨List.nodup_dedup _, List.nodup_dedup _⟩
        · have hb : (st != 200) = true := by
            simpa using hst
          simp only [hb, if_true, Except.ok.injEq] at h
          rw [← h]
          exact ⟨List.nodup_nil, List.nodup_nil⟩

/-- C8 witness: two album references resolving to the same image produce an
output that contains that image exactly once. -/
theorem C8_witness :
    "https://e/u1.jpg" ∈
      fetch_all_erome_image_urls c8_join c8_fetch ["a1", "a2"] ∧
    (fetch_all_erome_image_urls c8_join c8_fetch ["a1", "a2"]).count
        "https://e/u1.jpg" = 1 :=
  ⟨by decide,
   C8_deduplication.2.1 c8_join c8_fetch ["a1", "a2"] "https://e/u1.jpg"
     (by decide)⟩

-- ------------------------------------------------------------------
-- Pagination helper lemmas
-- ------------------------------------------------------------------

theorem isEmpty_false_of_ne_nil {α : Type} {l : List α} (h : l ≠ []) :
    l.isEmpty = false := by
  cases l with
  | nil => exact absurd rfl h
  | cons x xs => rfl

theorem eromeWalk_stop (fetch : Nat → EromeSearchPage) (n page : Nat)
    (h : ((fetch page).status != 200 || (fetch page).body_empty) = true) :
    eromeWalk fetch (n + 1) page = ([], [page]) := by
  rw [eromeWalk, if_pos h]

theorem eromeWalk_step (fetch : Nat → EromeSearchPage) (n page : Nat)
    (h : ((fetch page).status != 200 || (fetch page).body_empty) = false) :
    eromeWalk fetch (n + 1) page =
      (extract_album_links (fetch page) ++ (eromeWalk fetch n (page+1)).1,
       page :: (eromeWalk fetch n (page+1)).2) := by
  rw [eromeWalk, if_neg (by simp [h])]

theorem eromeWalk_visited_len (fetch : Nat → EromeSearchPage) :
    ∀ n page, ((eromeWalk fetch n page).2).length ≤ n := by
  intro n
  induction n with
  | zero =>
    intro page
    simp [eromeWalk]
  | succ m ih =>
    intro page
    by_cases hc : ((fetch page).status != 200 || (fetch page).body_empty) = true
    · rw [eromeWalk_stop fetch m page hc]
      simp
    · have hc2 : ((fetch page).status != 200 || (fetch page).body_empty) = false := by
        simpa using hc
      rw [eromeWalk_step fetch m page hc2]
      simpa using Nat.succ_le_succ (ih (page + 1))

theorem bunkrWalk_none (fetch : Nat → Option BunkrSearchPage)
    (username : String) (fuel page : Nat) (h : fetch page = none) :
    bunkrWalk fetch username (fuel + 1) page = ([], [page]) := by
  rw [bunkrWalk, h]

theorem bunkrWalk_empty (fetch : Nat → Option BunkrSearchPage)
    (username : String) (fuel page : Nat) (p : BunkrSearchPage)
    (h : fetch page = some p) (he : (bunkr_page_albums p).isEmpty = true) :
    bunkrWalk fetch username (fuel + 1) page = ([], [page]) := by
  rw [bunkrWalk, h]
  dsimp only
  rw [if_pos he]

theorem bunkrWalk_advance (fetch : Nat → Option BunkrSearchPage)
    (username : String) (fuel page : Nat) (p : BunkrSearchPage)
    (h : fetch page = some p) (he : (bunkr_page_albums p).isEmpty = false)
    (hn : has_next_control username p page = true) :
    bunkrWalk fetch username (fuel + 1) page =
      (bunkr_page_albums p ++ (bunkrWalk fetch username fuel (page + 1)).1,
       page :: (bunkrWalk fetch username fuel (page + 1)).2) := by
  rw [bunkrWalk, h]
  dsimp only
  rw [if_neg (by simp [he]), if_pos hn]

/-- Helper: pages that advance the Bunkr walker are all visited, as long as
enough fuel is supplied. -/
theorem bunkr_good_visits (fetch : Nat → Option BunkrSearchPage)
    (username : String) :
    ∀ n fuel start,
      (∀ k, k < n → bunkr_page_good fetch username (start + k) = true) →
      n ≤ fuel → ∀ k, k < n →
      (start + k) ∈ (bunkrWalk fetch username fuel start).2 := by
  intro n
  induction n with
  | zero =>
    intro fuel start _ _ k hk
    exact absurd hk (Nat.not_lt_zero k)
  | succ m ih =>
    intro fuel start hgood hf k hk
    have h0 : bunkr_page_good fetch username start = true := by
      have hh := hgood 0 (Nat.succ_pos m)
      simpa using hh
    cases hfp : fetch start with
    | none =>
      unfold bunkr_page_good at h0
      rw [hfp] at h0
      simp at h0
    | some p =>
      unfold bunkr_page_good at h0
      rw [hfp] at h0
      dsimp only at h0
      rw [Bool.and_eq_true] at h0
      obtain ⟨he, hn⟩ := h0
      have he2 : (bunkr_page_albums p).isEmpty = false := by
        simpa using he
      cases fuel with
      | zero => exact absurd hf (by omega)
      | succ f =>
        rw [bunkrWalk_advance fetch username f start p hfp he2 hn]
        dsimp only
        rw [List.mem_cons]
        cases k with
        | zero =>
          left
          simp
        | succ j =>
          right
          have hrec := ih f (start + 1)
            (fun k2 hk2 => by
              have heq : start + 1 + k2 = start + (k2 + 1) := by omega
              rw [heq]
              exact hgood (k2 + 1) (by omega))
            (by omega) j (by omega)
          have heq : start + (j + 1) = start + 1 + j := by omega
          rw [heq]
          exact hrec

/-- Helper: appending elements that are already present does not change the
size of the deduplicated list. -/
theorem dedup_append_length_eq {α : Type} [DecidableEq α] (l1 l2 : List α)
    (h : ∀ x ∈ l2, x ∈ l1) :
    ((l1.dedup ++ l2).dedup).length = l1.dedup.length := by
  have hd : l1.dedup.toFinset = l1.toFinset :=
    List.toFinset.ext (fun x => List.mem_dedup)
  have h1 : (l1.dedup ++ l2).toFinset = l1.toFinset := by
    rw [List.toFinset_append, hd]
    apply Finset.union_eq_left.2
    intro x hx
    rw [List.mem_toFinset] at hx ⊢
    exact h x hx
  calc ((l1.dedup ++ l2).dedup).length
      = (l1.dedup ++ l2).toFinset.card := (List.card_toFinset _).symm
    _ = l1.toFinset.card := by rw [h1]
    _ = l1.dedup.length := List.card_toFinset _

/-- Helper: positional access to a zipWith. -/
theorem zipWith_getElem_some {α β γ : Type} (f : α → β → γ) :
    ∀ (as : List α) (bs : List β) (i : Nat) (a : α) (b : β),
      as[i]? = some a → bs[i]? = some b →
      (List.zipWith f as bs)[i]? = some (f a b) := by
  intro as
  induction as with
  | nil =>
    intro bs i a b ha _
    simp at ha
  | cons x xs ih =>
    intro bs i a b ha hb
    cases bs with
    | nil => simp at hb
    | cons y ys =>
      cases i with
      | zero =>
        simp only [List.getElem?_cons_zero, Option.some.injEq] at ha hb
        subst ha
        subst hb
        simp [List.zipWith]
      | succ j =>
        simp only [List.getElem?_cons_succ] at ha hb
        simpa [List.zipWith] using ih ys j a b ha hb

-- ------------------------------------------------------------------
-- C3 / C4 / C5 / C6 / C7 theorems
-- ------------------------------------------------------------------

/-- C3: the JPG5 walk follows only the explicit next-page control, and a
page whose media adds nothing new to the accumulated set (in particular one
whose assets are a subset of the first page) terminates the walk right
there, even though its next-page control is present: only the first two
URLs are ever fetched. -/
theorem C3_jpg5_stall (fetch : String → Option JpgPage) (u : String)
    (p1 p2 : JpgPage) (nh : String) (fuel : Nat)
    (hf1 : fetch u = some p1) (hm1 : jpg_page_media p1 ≠ [])
    (hn1 : p1.nextHref = some nh)
    (hf2 : fetch (jpg_next_url nh) = some p2)
    (hsub : ∀ x ∈ jpg_page_media p2, x ∈ jpg_page_media p1) :
    (jpgWalk fetch (fuel + 2) u []).2 = [u, jpg_next_url nh] := by
  have hie1 : (jpg_page_media p1).isEmpty = false := isEmpty_false_of_ne_nil hm1
  have hlen1 : ¬ (((([] : List String) ++ jpg_page_media p1).dedup).length =
      ([] : List String).length) := by
    simp only [List.nil_append, List.length_nil]
    intro hc
    exact hm1 ((List.dedup_eq_nil _).1 (List.length_eq_zero.1 hc))
  have step1 : jpgWalk fetch (fuel + 2) u [] =
      ((jpgWalk fetch (fuel + 1) (jpg_next_url nh)
          ((([] : List String) ++ jpg_page_media p1).dedup)).1,
       u :: (jpgWalk fetch (fuel + 1) (jpg_next_url nh)
          ((([] : List String) ++ jpg_page_media p1).dedup)).2) := by
    rw [show fuel + 2 = (fuel + 1) + 1 from rfl]
    rw [jpgWalk, hf1]
    dsimp only
    rw [if_neg (by simp [hie1]), if_neg hlen1, hn1]
  by_cases hm2 : jpg_page_media p2 = []
  · have hie2 : (jpg_page_media p2).isEmpty = true := by
      rw [hm2]
      rfl
    have step2 : jpgWalk fetch (fuel + 1) (jpg_next_url nh)
        ((([] : List String) ++ jpg_page_media p1).dedup) =
        (((([] : List String) ++ jpg_page_media p1).dedup),
         [jpg_next_url nh]) := by
      rw [jpgWalk, hf2]
      dsimp only
      rw [if_pos hie2]
    rw [step1]
    dsimp only
    rw [step2]
  · have hie2 : (jpg_page_media p2).isEmpty = false := isEmpty_false_of_ne_nil hm2
    have hlen2 : ((((([] : List String) ++ jpg_page_media p1).dedup) ++
        jpg_page_media p2).dedup).length =
        ((([] : List String) ++ jpg_page_media p1).dedup).length := by
      simpa using dedup_append_length_eq (jpg_page_media p1)
        (jpg_page_media p2) hsub
    have step2 : jpgWalk fetch (fuel + 1) (jpg_next_url nh)
        ((([] : List String) ++ jpg_page_media p1).dedup) =
        ((((([] : List String) ++ jpg_page_media p1).dedup) ++
            jpg_page_media p2).dedup,
         [jpg_next_url nh]) := by
      rw [jpgWalk, hf2]
      dsimp only
      rw [if_neg (by simp [hie2]), if_pos hlen2]
    rw [step1]
    dsimp only
    rw [step2]

/-- C3 witness: the concrete two-page fixture with a strict subset on page
2 and a present next-page control stops after fetching exactly the two
page URLs. -/
theorem C3_witness :
    (jpgWalk c3_fetch 2 "https://jpg5.su/alb" []).2 =
      ["https://jpg5.su/alb", jpg_next_url "/alb?page=2"] :=
  C3_jpg5_stall c3_fetch "https://jpg5.su/alb"
    ⟨["https://jpg5.su/i1.jpg", "https://jpg5.su/i2.jpg"], some "/alb?page=2"⟩
    ⟨["https://jpg5.su/i1.jpg"], some "/alb?page=3"⟩
    "/alb?page=2" 0 rfl (by decide) rfl (by decide) (by decide)

/-- C4 counterexample: the claim says every walker transitions to done on
an empty parse, with the three-page fixture consuming exactly three pages.
On this Erome fixture, page 3 is a 200 response with a non-empty body that
parses to no album links, yet the walker keeps going: it consumes all ten
pages of its cap and even collects an album from page 4. -/
theorem C4_counterexample :
    extract_album_links (c4_fetch 3) = [] ∧
    (fetch_all_album_pages_by_username c4_fetch 10).2 =
      [1, 2, 3, 4, 5, 6, 7, 8, 9, 10] ∧
    "https://www.erome.com/a/p4" ∈
      (fetch_all_album_pages_by_username c4_fetch 10).1 := by
  refine ⟨rfl, rfl, ?_⟩
  decide

/-- C4 amended: the Bunkr walker transitions to done on a failed fetch and
on an empty parse, and its three-page fixture consumes exactly pages 1, 2,
3; the Erome walker transitions to done only on a failed fetch (non-200
status or empty body), which also yields exactly three consumed pages in
the three-page shape, but an empty parse does not stop it (see the
counterexample). -/
theorem C4_amended :
    (∀ (fetch : Nat → Option BunkrSearchPage) (username : String)
        (fuel page : Nat), fetch page = none →
        bunkrWalk fetch username (fuel + 1) page = ([], [page])) ∧
    (∀ (fetch : Nat → Option BunkrSearchPage) (username : String)
        (fuel page : Nat) (p : BunkrSearchPage), fetch page = some p →
        bunkr_page_albums p = [] →
        bunkrWalk fetch username (fuel + 1) page = ([], [page])) ∧
    (∀ (fetch : Nat → Option BunkrSearchPage) (username : String)
        (fuel : Nat) (p1 p2 : BunkrSearchPage),
        fetch 1 = some p1 → bunkr_page_albums p1 ≠ [] →
        has_next_control username p1 1 = true →
        fetch 2 = some p2 → bunkr_page_albums p2 ≠ [] →
        has_next_control username p2 2 = true →
        (fetch 3 = none ∨
          ∃ p3, fetch 3 = some p3 ∧ bunkr_page_albums p3 = []) →
        (bunkrWalk fetch username (fuel + 3) 1).2 = [1, 2, 3]) ∧
    (∀ (fetch : Nat → EromeSearchPage) (m : Nat),
        ((fetch 1).status != 200 || (fetch 1).body_empty) = false →
        ((fetch 2).status != 200 || (fetch 2).body_empty) = false →
        ((fetch 3).status != 200 || (fetch 3).body_empty) = true →
        (fetch_all_album_pages_by_username fetch (m + 3)).2 = [1, 2, 3]) := by
  refine ⟨bunkrWalk_none, ?_, ?_, ?_⟩
  · intro fetch username fuel page p h he
    exact bunkrWalk_empty fetch username fuel page p h (by rw [he]; rfl)
  · intro fetch username fuel p1 p2 hf1 hne1 hn1 hf2 hne2 hn2 h3
    rw [show fuel + 3 = (fuel + 2) + 1 from rfl]
    rw [bunkrWalk_advance fetch username (fuel + 2) 1 p1 hf1
      (isEmpty_false_of_ne_nil hne1) hn1]
    dsimp only
    rw [show fuel + 2 = (fuel + 1) + 1 from rfl]
    rw [show (1 : Nat) + 1 = 2 from rfl]
    rw [bunkrWalk_advance fetch username (fuel + 1) 2 p2 hf2
      (isEmpty_false_of_ne_nil hne2) hn2]
    dsimp only
    rw [show (2 : Nat) + 1 = 3 from rfl]
    cases h3 with
    | inl h =>
      rw [show fuel + 1 = fuel + 1 from rfl, bunkrWalk_none fetch username fuel 3 h]
    | inr h =>
      obtain ⟨p3, hf3, he3⟩ := h
      rw [bunkrWalk_empty fetch username fuel 3 p3 hf3 (by rw [he3]; rfl)]
  · intro fetch m h1 h2 h3
    show (eromeWalk fetch (m + 3) 1).2 = [1, 2, 3]
    rw [show m + 3 = (m + 2) + 1 from rfl, eromeWalk_step fetch (m + 2) 1 h1]
    dsimp only
    rw [show (1 : Nat) + 1 = 2 from rfl]
    rw [show m + 2 = (m + 1) + 1 from rfl, eromeWalk_step fetch (m + 1) 2 h2]
    dsimp only
    rw [show (2 : Nat) + 1 = 3 from rfl]
    rw [eromeWalk_stop fetch m 3 h3]

/-- C4 amended witness: the Bunkr three-page fixture consumes exactly pages
1, 2, 3, and the Erome fixture whose third page fails with status 500 also
stops after exactly three pages. -/
theorem C4_witness :
    (bunkrWalk c4b_fetch "u" 9 1).2 = [1, 2, 3] ∧
    (fetch_all_album_pages_by_username c4c_fetch 10).2 = [1, 2, 3] :=
  ⟨C4_amended.2.2.1 c4b_fetch "u" 6
      ⟨["https://bunkr.cr/a/1"], ["T1"], ["/?search=u&page=2"]⟩
      ⟨["https://bunkr.cr/a/2"], ["T2"], ["/?search=u&page=3"]⟩
      rfl (by decide) (by decide) rfl (by decide) (by decide)
      (Or.inr ⟨⟨[], [], []⟩, rfl, rfl⟩),
   C4_amended.2.2.2 c4c_fetch 7 (by decide) (by decide) (by decide)⟩

/-- C5 counterexample: the claim says no upper bound exists on pages
consumed other than the source running out. On this Erome fixture, every
page yields a fresh album link, yet the walker stops at its cap of ten
pages: page 11 is never fetched and its album is absent, though fetching it
would have yielded one. -/
theorem C5_counterexample :
    (fetch_all_album_pages_by_username c5_fetch 10).2 =
      [1, 2, 3, 4, 5, 6, 7, 8, 9, 10] ∧
    "https://www.erome.com/a/p11" ∉
      (fetch_all_album_pages_by_username c5_fetch 10).1 ∧
    extract_album_links (c5_fetch 11) = ["https://www.erome.com/a/p11"] := by
  refine ⟨rfl, by decide, rfl⟩

/-- C5 amended: the Bunkr search walker is unbounded — for every N, if the
first N pages from some start all yield albums and a next-page control,
they are all fetched (given at least N fuel, the model stand-in for the
unbounded while loop) — while the Erome username walker never consumes more
than its max_pages cap (10 in both API call sites), an upper bound
independent of the source running out of results. -/
theorem C5_amended :
    (∀ (fetch : Nat → Option BunkrSearchPage) (username : String)
        (n fuel start : Nat),
        (∀ k, k < n → bunkr_page_good fetch username (start + k) = true) →
        n ≤ fuel → ∀ k, k < n →
        (start + k) ∈ (bunkrWalk fetch username fuel start).2) ∧
    (∀ (fetch : Nat → EromeSearchPage) (max_pages : Nat),
        ((fetch_all_album_pages_by_username fetch max_pages).2).length ≤
          max_pages) :=
  ⟨fun fetch username n fuel start hgood hf k hk =>
      bunkr_good_visits fetch username n fuel start hgood hf k hk,
   fun fetch max_pages => eromeWalk_visited_len fetch max_pages 1⟩

/-- C5 amended witness: on a Bunkr fixture where every page yields an album
and a next-page control, page 12 is among the visited pages. -/
theorem C5_witness : (12 : Nat) ∈ (bunkrWalk c5b_fetch "u" 20 1).2 :=
  C5_amended.1 c5b_fetch "u" 20 20 1 (by decide) (Nat.le_refl 20) 11
    (by decide)

/-- C6 counterexample: the claim says a media URL is collected only if it
both starts with the fixed content host marker and contains the username
segment. This video source URL does not start with the content host marker
(only with the bare scheme), yet the Fapello sub-page scan collects it. -/
theorem C6_counterexample :
    strStarts "https://fapello.com/content/"
      "https://evil.example/alice/v.mp4" = false ∧
    "https://evil.example/alice/v.mp4" ∈
      (fetch_fapello_page_media
        (FapelloPageFetch.ok [] ["https://evil.example/alice/v.mp4"] 200)
        "alice").2 := by
  decide

/-- C6 amended: on a 200 sub-page, an image is collected exactly when its
truthy `src or data-src` starts with the content host marker and contains
the username segment, while a video is collected exactly when its source
starts with the bare `https://` scheme and contains the username segment; a
raising or non-200 sub-page contributes nothing. -/
theorem C6_amended (imgs : List FapelloImg) (vids : List String)
    (username u : String) :
    (u ∈ (fetch_fapello_page_media (FapelloPageFetch.ok imgs vids 200)
        username).1 ↔
      ∃ img ∈ imgs, pyOr img.src img.dataSrc = some u ∧
        (u != "" && strStarts "https://fapello.com/content/" u &&
          hasSubstr ("/" ++ username ++ "/") u) = true) ∧
    (u ∈ (fetch_fapello_page_media (FapelloPageFetch.ok imgs vids 200)
        username).2 ↔
      u ∈ vids ∧
        (strStarts "https://" u &&
          hasSubstr ("/" ++ username ++ "/") u) = true) ∧
    fetch_fapello_page_media FapelloPageFetch.exn username = ([], []) ∧
    (∀ st, st ≠ 200 →
      fetch_fapello_page_media (FapelloPageFetch.ok imgs vids st) username =
        ([], [])) := by
  refine ⟨?_, ?_, rfl, ?_⟩
  · unfold fetch_fapello_page_media
    dsimp only
    rw [if_neg (by simp)]
    dsimp only
    rw [List.mem_filterMap]
    constructor
    · rintro ⟨img, hin, hf⟩
      cases hp : pyOr img.src img.dataSrc with
      | none =>
        rw [hp] at hf
        simp at hf
      | some w =>
        rw [hp] at hf
        dsimp only at hf
        by_cases hc : (w != "" && strStarts "https://fapello.com/content/" w &&
            hasSubstr ("/" ++ username ++ "/") w) = true
        · rw [if_pos hc] at hf
          obtain rfl : w = u := by simpa using hf
          exact ⟨img, hin, hp, hc⟩
        · rw [if_neg hc] at hf
          simp at hf
    · rintro ⟨img, hin, hp, hc⟩
      refine ⟨img, hin, ?_⟩
      rw [hp]
      dsimp only
      rw [if_pos hc]
  · unfold fetch_fapello_page_media
    dsimp only
    rw [if_neg (by simp)]
    dsimp only
    rw [List.mem_filter]
  · intro st hst
    unfold fetch_fapello_page_media
    dsimp only
    rw [if_pos (by simpa using hst)]

/-- C6 amended witness: a concrete 404 sub-page contributes nothing. -/
theorem C6_witness :
    fetch_fapello_page_media
      (FapelloPageFetch.ok [] ["https://x/alice/v.mp4"] 404) "alice" =
      ([], []) :=
  (C6_amended [] ["https://x/alice/v.mp4"] "alice" "z").2.2.2 404 (by decide)

/-- C7: the Nth matching album link on a Bunkr search page is paired with
the Nth title span in document order; and the two-page fixture (two albums
plus a next-page control on page 1, one album and no control on page 2)
yields exactly three positionally paired album entries. -/
theorem C7_positional_pairing :
    (∀ (p : BunkrSearchPage) (i : Nat) (u t : String),
        ((parse_links_and_titles p).1)[i]? = some u →
        ((parse_links_and_titles p).2)[i]? = some t →
        (bunkr_page_albums p)[i]? = some (Album.mk u t)) ∧
    get_all_album_links_from_search c7_fetch "alice" 9 =
      [⟨"https://bunkr.cr/a/1", "A1"⟩, ⟨"https://bunkr.cr/a/2", "A2"⟩,
       ⟨"https://bunkr.cr/a/3", "A3"⟩] := by
  constructor
  · intro p i u t hu ht
    exact zipWith_getElem_some (fun x y => Album.mk x y)
      (parse_links_and_titles p).1 (parse_links_and_titles p).2 i u t hu ht
  · rfl

/-- C7 witness: on page 1 of the fixture the second matching link is paired
with the second title. -/
theorem C7_witness :
    (bunkr_page_albums c7_page1)[1]? =
      some (Album.mk "https://bunkr.cr/a/2" "A2") :=
  C7_positional_pairing.1 c7_page1 1 "https://bunkr.cr/a/2" "A2" rfl rfl

/-- C10 witness: a 200 response retains the concrete URL unchanged, while a
206 Partial Content response drops it. -/
theorem C10_witness :
    validate_url (fun _ => Except.ok 200) "https://a/i.jpg" =
      some "https://a/i.jpg" ∧
    validate_url (fun _ => Except.ok 206) "https://a/i.jpg" = none :=
  ⟨(C10_validate_url_iff (fun _ => Except.ok 200) "https://a/i.jpg").1.2 rfl,
   rfl⟩

end Afterdark
